import Mathlib

/-!
Verification of the two form pages of this repository: the maker-checker
record review page (merchant_business_size_editor) and the CSV upload page
(csv_upload_to_table).  The SQL-building functions are embedded directly
from the source; the warehouse statement semantics (CREATE TABLE IF NOT
EXISTS, INSERT, INSERT OVERWRITE, UPDATE applied to a matched row) are
modelled from the specification of the external interface, since the
warehouse itself is an external collaborator.
-/

/-- the ASCII single-quote character, used by the SQL escaping logic. -/
def squote : Char := Char.ofNat 39

/-- the one-character string holding a single quote. -/
def squotes : String := String.mk [squote]

/-- a scalar cell value as the pages handle it: missing (None or NaN),
a Python string, or a number. -/
inductive Val where
  | null : Val
  | str : String → Val
  | num : Int → Val
deriving DecidableEq, Repr

/-- pandas isna: true exactly for missing values (None or NaN). -/
def isna (v : Val) : Bool := v == Val.null

/-- workflow status constant. -/
def STATUS_PENDING : String := "PENDING"

/-- workflow status constant. -/
def STATUS_APPROVED : String := "APPROVED"

/-- workflow status constant. -/
def STATUS_REJECTED : String := "REJECTED"

/-- the escaping step of update_record: each single quote of the value is
replaced by two single quotes. -/
def escape_quotes (s : String) : String :=
  String.mk ((s.data.map (fun c => if c = squote then [squote, squote] else [c])).flatten)

/-- one SET clause of update_record: NULL for None or the empty string,
a quoted escaped literal for other strings, the bare text for numbers. -/
def set_clause_for (col : String) (v : Val) : String :=
  match v with
  | Val.null => col ++ " = NULL"
  | Val.str s =>
      if s = "" then col ++ " = NULL"
      else col ++ " = " ++ squotes ++ escape_quotes s ++ squotes
  | Val.num n => col ++ " = " ++ toString n

/-- the list of SET clauses update_record builds from record_data. -/
def set_clauses (record_data : List (String × Val)) : List String :=
  record_data.map (fun p => set_clause_for p.1 p.2)

/-- the single UPDATE statement update_record executes. -/
def update_record_sql (table_name : String) (record_data : List (String × Val))
    (where_clause : String) : String :=
  "UPDATE " ++ table_name ++ " SET " ++
    String.intercalate ", " (set_clauses record_data) ++ " WHERE " ++ where_clause

/-- a table row, seen as the value stored under each column name. -/
def Row : Type := String → Val

/-- Modelled from the spec: the value a SET clause built by update_record
stores in the warehouse (section 6 dialect) — NULL for None or the empty
string, the value itself otherwise. -/
def storedVal (v : Val) : Val :=
  match v with
  | Val.null => Val.null
  | Val.str s => if s = "" then Val.null else Val.str s
  | Val.num n => Val.num n

/-- updating one column of a row. -/
def setCol (r : Row) (c : String) (v : Val) : Row :=
  fun d => if d = c then v else r d

/-- Modelled from the spec: the effect of executing the UPDATE built by
update_record on a row matched by its WHERE clause. -/
def applyUpdate (r : Row) (us : List (String × Val)) : Row :=
  us.foldl (fun acc p => setCol acc p.1 (storedVal p.2)) r

/-- executing an optional submission: when no statement was produced the
row is untouched, otherwise the update is applied. -/
def exec_submit (r : Row) (o : Option (List (String × Val))) : Row :=
  match o with
  | none => r
  | some us => applyUpdate r us

/-- the update_data dictionary the maker form submit handler builds. -/
def maker_update_data (size_value gender_value current_user ts : String) :
    List (String × Val) :=
  [("business_reviewed_size_pending", Val.str size_value),
   ("business_reviewed_gender_pending", Val.str gender_value),
   ("review_status", Val.str STATUS_PENDING),
   ("reviewed_by_maker", Val.str current_user),
   ("reviewed_date_maker", Val.str ts)]

/-- the maker form submit handler: an empty size or gender is rejected
locally (no update built), otherwise the five-field update is issued. -/
def maker_submit (size_value gender_value current_user ts : String) :
    Option (List (String × Val)) :=
  if size_value = "" ∨ gender_value = "" then none
  else some (maker_update_data size_value gender_value current_user ts)

/-- the update_data dictionary the checker approve handler builds; empty
comments are passed through as the empty string. -/
def approve_update_data (edited_size edited_gender current_user ts checker_comments : String) :
    List (String × Val) :=
  [("business_reviewed_size", Val.str edited_size),
   ("business_reviewed_gender", Val.str edited_gender),
   ("review_status", Val.str STATUS_APPROVED),
   ("reviewed_by_checker", Val.str current_user),
   ("reviewed_date_checker", Val.str ts),
   ("checker_comments", Val.str (if checker_comments = "" then "" else checker_comments))]

/-- the checker approve handler: it performs no local validation and
always issues the update. -/
def approve_submit (edited_size edited_gender current_user ts checker_comments : String) :
    Option (List (String × Val)) :=
  some (approve_update_data edited_size edited_gender current_user ts checker_comments)

/-- the update_data dictionary the checker reject handler builds. -/
def reject_update_data (current_user ts checker_comments : String) :
    List (String × Val) :=
  [("review_status", Val.str STATUS_REJECTED),
   ("reviewed_by_checker", Val.str current_user),
   ("reviewed_date_checker", Val.str ts),
   ("checker_comments", Val.str checker_comments)]

/-- the checker reject handler: empty comments are rejected locally (no
update built), otherwise the four-field update is issued. -/
def reject_submit (current_user ts checker_comments : String) :
    Option (List (String × Val)) :=
  if checker_comments = "" then none
  else some (reject_update_data current_user ts checker_comments)

/-- the pending-review filter of the checker page: only rows whose
review_status is PENDING are offered for approval or rejection. -/
def pending_reviews (rows : List Row) : List Row :=
  rows.filter (fun r => r "review_status" == Val.str STATUS_PENDING)

/-- whether the first character list leads the second one. -/
def charsLead : List Char → List Char → Bool
  | [], _ => true
  | _ :: _, [] => false
  | a :: as, b :: bs => a == b && charsLead as bs

/-- whether the first character list occurs inside the second one. -/
def charsInside (needle : List Char) : List Char → Bool
  | [] => charsLead needle []
  | b :: bs => charsLead needle (b :: bs) || charsInside needle bs

/-- substring containment, the meaning of the Python in operator on
strings. -/
def strContains (hay needle : String) : Bool :=
  charsInside needle.data hay.data

/-- infer_sql_type from the upload page: maps a pandas dtype name to a SQL
type name, with STRING as the fallback. -/
def infer_sql_type (dtype : String) : String :=
  if dtype = "object" then "STRING"
  else if dtype = "int64" then "BIGINT"
  else if dtype = "float64" then "DOUBLE"
  else if dtype = "bool" then "BOOLEAN"
  else if strContains dtype "datetime" then "TIMESTAMP"
  else "STRING"

/-- the backtick-quoted column definitions built by
create_table_from_dataframe. -/
def column_defs (dtypes : List (String × String)) : List String :=
  dtypes.map (fun p => "`" ++ p.1 ++ "` " ++ infer_sql_type p.2)

/-- the CREATE TABLE statement built by create_table_from_dataframe,
whitespace as in the source f-string. -/
def create_table_sql (dtypes : List (String × String)) (table_name : String) : String :=
  "\n    CREATE TABLE IF NOT EXISTS " ++ table_name ++ " (\n        " ++
    String.intercalate ", " (column_defs dtypes) ++ "\n    ) USING DELTA\n    "

/-- the state of one warehouse table: its schema when it exists, and its
rows. -/
structure TableState where
  schema : Option (List (String × String))
  rows : List (List Val)
deriving DecidableEq, Repr

/-- Modelled from the spec: warehouse semantics of CREATE TABLE IF NOT
EXISTS (sections 4.2 and 6): against an existing table it is a no-op and
never an error; otherwise an empty table with the given columns appears. -/
def execCreateIfNotExists (ts : TableState) (dtypes : List (String × String)) : TableState :=
  match ts.schema with
  | some _ => ts
  | none => { schema := some dtypes, rows := [] }

/-- the table_exists probe of the upload page: DESCRIBE wrapped into a
boolean, true exactly when the table exists. -/
def table_exists (ts : TableState) : Bool := ts.schema.isSome

/-- the positional parameter key p0, p1, ... used by insert_data_to_table. -/
def param_key (p : Nat) : String := "p" ++ toString p

/-- one parameter binding of insert_data_to_table: missing values bind as
SQL NULL, others as themselves. -/
def bind_of (p : Nat) (v : Val) : String × Option Val :=
  (param_key p, if isna v then none else some v)

/-- the placeholder texts and parameter bindings insert_data_to_table
builds for one row, starting at counter p. -/
def row_bindings (row : List Val) (p : Nat) :
    List String × List (String × Option Val) :=
  match row with
  | [] => ([], [])
  | v :: vs =>
      let rest := row_bindings vs (p + 1)
      ((":" ++ param_key p) :: rest.1, bind_of p v :: rest.2)

/-- the VALUES groups and parameter bindings insert_data_to_table builds
for all rows, threading the counter across rows. -/
def build_bindings (rows : List (List Val)) (p : Nat) :
    List String × List (String × Option Val) :=
  match rows with
  | [] => ([], [])
  | row :: rest =>
      let rb := row_bindings row p
      let rest2 := build_bindings rest (p + row.length)
      (("(" ++ String.intercalate "," rb.1 ++ ")") :: rest2.1, rb.2 ++ rest2.2)

/-- the backtick-quoted column list of insert_data_to_table. -/
def col_list_sql (cols : List String) : String :=
  String.intercalate "," (cols.map (fun c => "`" ++ c ++ "`"))

/-- one SQL statement together with its positional parameter bindings. -/
structure InsertStmt where
  sql : String
  params : List (String × Option Val)
deriving DecidableEq, Repr

/-- insert_data_to_table: none when the dataframe has no rows (the
function returns before building any statement), otherwise exactly one
INSERT INTO or INSERT OVERWRITE statement with its bindings. -/
def insert_data_to_table (rows : List (List Val)) (cols : List String)
    (table_name mode : String) : Option InsertStmt :=
  if rows = [] then none
  else
    let vp := build_bindings rows 0
    let values_sql := String.intercalate "," vp.1
    some (if mode = "overwrite" then
      { sql := "INSERT OVERWRITE " ++ table_name ++ " (" ++ col_list_sql cols ++
          ") VALUES " ++ values_sql,
        params := vp.2 }
    else
      { sql := "INSERT INTO " ++ table_name ++ " (" ++ col_list_sql cols ++
          ") VALUES " ++ values_sql,
        params := vp.2 })

/-- the placeholder texts of one row, computed from the row LENGTH alone:
used to show the SQL text never depends on the data values. -/
def row_placeholders (len p : Nat) : List String :=
  match len with
  | 0 => []
  | Nat.succ n => (":" ++ param_key p) :: row_placeholders n (p + 1)

/-- the VALUES groups computed from the row lengths alone. -/
def values_shape (lens : List Nat) (p : Nat) : List String :=
  match lens with
  | [] => []
  | l :: ls =>
      ("(" ++ String.intercalate "," (row_placeholders l p) ++ ")") :: values_shape ls (p + l)

/-- the parameter bindings as one flat enumeration of every data value. -/
def flat_bindings (rows : List (List Val)) (p : Nat) : List (String × Option Val) :=
  (List.enumFrom p rows.flatten).map (fun iv => bind_of iv.1 iv.2)

/-- Modelled from the spec: warehouse semantics of INSERT INTO and INSERT
OVERWRITE (sections 4.3 and 6): append adds the new rows, overwrite
replaces the entire table contents. -/
def execInsert (ts : TableState) (newRows : List (List Val)) (mode : String) : TableState :=
  if mode = "overwrite" then { ts with rows := newRows }
  else { ts with rows := ts.rows ++ newRows }

/-- insert_data_to_table followed by warehouse execution of the produced
statement; a no-op when no statement was produced (empty dataframe). -/
def run_insert (ts : TableState) (rows : List (List Val)) (cols : List String)
    (table_name mode : String) : TableState :=
  match insert_data_to_table rows cols table_name mode with
  | none => ts
  | some _ => execInsert ts rows mode

/-- the Overwrite Existing Table branch of the upload page: create the
table when it does not exist, then insert in overwrite mode. -/
def overwrite_mode_run (ts : TableState) (df : List (List Val))
    (dtypes : List (String × String)) (table_name : String) : TableState :=
  let ts1 := if table_exists ts then ts else execCreateIfNotExists ts dtypes
  run_insert ts1 df (dtypes.map Prod.fst) table_name "overwrite"

/-- whether a string contains the at sign, the email-shape test of
get_current_user_email. -/
def hasAt (s : String) : Bool := s.data.any (fun c => c == Char.ofNat 64)

/-- the identity-service user record consulted by method 3 of
get_current_user_email. -/
structure WCUser where
  user_name : Option String
  emails : List String
  display_name : Option String
  id : Option String
deriving DecidableEq, Repr

/-- the environment get_current_user_email runs in: the warehouse query
result (none when the query raised or returned nothing truthy), the host
platform user claim, and the identity-service record (none when the
lookup raised). -/
structure IdentityEnv where
  sql_user : Option String
  exp_user : Option (Option String)
  wc_user : Option WCUser
deriving DecidableEq, Repr

/-- method 3, step 1: the user_name attribute when truthy and
email-shaped. -/
def fromUserName (u : WCUser) : Option String :=
  match u.user_name with
  | some n => if n != "" && hasAt n then some n else none
  | none => none

/-- method 3, step 2: the first entry of the emails attribute when truthy
and email-shaped. -/
def fromEmails (u : WCUser) : Option String :=
  match u.emails with
  | e :: _ => if e != "" && hasAt e then some e else none
  | [] => none

/-- method 3, step 3: the display_name attribute when truthy and
email-shaped. -/
def fromDisplayName (u : WCUser) : Option String :=
  match u.display_name with
  | some d => if d != "" && hasAt d then some d else none
  | none => none

/-- method 3, last resort: the bare id when truthy, else the literal
string unknown. -/
def idOr (u : WCUser) : String :=
  match u.id with
  | some i => if i != "" then i else "unknown"
  | none => "unknown"

/-- method 3 of get_current_user_email: the identity-service fallback
chain user_name, emails, display_name, id. -/
def method3 (u : WCUser) : String :=
  match fromUserName u with
  | some n => n
  | none =>
      match fromEmails u with
      | some e => e
      | none =>
          match fromDisplayName u with
          | some d => d
          | none => idOr u

/-- the tail of get_current_user_email after method 2: method 3 when the
identity-service lookup succeeds, the sentinel when it raises. -/
def after_exp (env : IdentityEnv) : String :=
  match env.wc_user with
  | some u => method3 u
  | none => "unknown@databricks.com"

/-- the tail of get_current_user_email after method 1: the host platform
claim when truthy and email-shaped, else the method 3 tail. -/
def after_sql (env : IdentityEnv) : String :=
  match env.exp_user with
  | some (some em) => if em != "" && hasAt em then em else after_exp env
  | some none => after_exp env
  | none => after_exp env

/-- get_current_user_email: the warehouse query value when email-shaped,
else the host claim when email-shaped, else the identity-service chain,
with the sentinel only when the identity-service lookup raises. -/
def get_current_user_email (env : IdentityEnv) : String :=
  match env.sql_user with
  | some v => if hasAt v then v else after_sql env
  | none => after_sql env

/-- whether method 1, the warehouse query, supplied an email-shaped
value. -/
def sql_slot (env : IdentityEnv) : Bool :=
  match env.sql_user with
  | some v => hasAt v
  | none => false

/-- whether method 2, the host platform claim, supplied a truthy
email-shaped value. -/
def exp_slot (env : IdentityEnv) : Bool :=
  match env.exp_user with
  | some (some em) => em != "" && hasAt em
  | some none => false
  | none => false

/-- whether method 3, the identity-service record, supplies an
email-shaped value at any of the three positions the code inspects. -/
def wc_slots (env : IdentityEnv) : Bool :=
  match env.wc_user with
  | some u => (fromUserName u).isSome || ((fromEmails u).isSome || (fromDisplayName u).isSome)
  | none => false

/-- whether any method of the fallback chain supplies a truthy,
email-shaped value at the position the code inspects. -/
def email_supplied (env : IdentityEnv) : Bool :=
  sql_slot env || (exp_slot env || wc_slots env)

/-- one column update evaluated at a name. -/
theorem setCol_apply (r : Row) (c : String) (v : Val) (d : String) :
    setCol r c v d = if d = c then v else r d := rfl

/-- C1: a maker submission with an empty selected size or gender is
rejected locally: no update statement is produced and the table row is
unchanged; only when both are non-empty does the handler issue the update
setting both pending fields, review_status = PENDING, reviewed_by_maker
and reviewed_date_maker. -/
theorem maker_submit_validation (size_value gender_value current_user ts : String) (r : Row) :
    (size_value = "" ∨ gender_value = "" →
      maker_submit size_value gender_value current_user ts = none ∧
      exec_submit r (maker_submit size_value gender_value current_user ts) = r) ∧
    (size_value ≠ "" → gender_value ≠ "" →
      maker_submit size_value gender_value current_user ts =
        some (maker_update_data size_value gender_value current_user ts) ∧
      applyUpdate r (maker_update_data size_value gender_value current_user ts)
        "business_reviewed_size_pending" = Val.str size_value ∧
      applyUpdate r (maker_update_data size_value gender_value current_user ts)
        "business_reviewed_gender_pending" = Val.str gender_value ∧
      applyUpdate r (maker_update_data size_value gender_value current_user ts)
        "review_status" = Val.str STATUS_PENDING ∧
      applyUpdate r (maker_update_data size_value gender_value current_user ts)
        "reviewed_by_maker" = storedVal (Val.str current_user) ∧
      applyUpdate r (maker_update_data size_value gender_value current_user ts)
        "reviewed_date_maker" = storedVal (Val.str ts)) := by
  constructor
  · intro h
    have hnone : maker_submit size_value gender_value current_user ts = none := by
      unfold maker_submit
      exact if_pos h
    exact ⟨hnone, by rw [hnone]; rfl⟩
  · intro hs hg
    have hsome : maker_submit size_value gender_value current_user ts =
        some (maker_update_data size_value gender_value current_user ts) := by
      unfold maker_submit
      exact if_neg (by push_neg; exact ⟨hs, hg⟩)
    refine ⟨hsome, ?_, ?_, ?_, ?_, ?_⟩ <;>
      simp [applyUpdate, maker_update_data, setCol, storedVal, hs, hg, STATUS_PENDING]

/-- C1 witness: the validation theorem applied at concrete inputs. -/
theorem maker_submit_validation_witness :
    maker_submit "" "MALE" "u@x.com" "2024-01-01 00:00:00" = none ∧
    maker_submit "MICRO" "MALE" "u@x.com" "2024-01-01 00:00:00" =
      some (maker_update_data "MICRO" "MALE" "u@x.com" "2024-01-01 00:00:00") := by
  refine ⟨?_, ?_⟩
  · exact ((maker_submit_validation "" "MALE" "u@x.com" "2024-01-01 00:00:00"
      (fun _ => Val.null)).1 (Or.inl rfl)).1
  · exact ((maker_submit_validation "MICRO" "MALE" "u@x.com" "2024-01-01 00:00:00"
      (fun _ => Val.null)).2 (by decide) (by decide)).1

/-- C2: a checker rejection with empty comments issues no update and the
row is unchanged; with non-empty comments the issued update sets
review_status from PENDING to REJECTED plus reviewed_by_checker,
reviewed_date_checker and checker_comments, and carries no assignment to
business_reviewed_size or business_reviewed_gender, which keep their
previous values. -/
theorem reject_submit_validation (current_user ts checker_comments : String) (r : Row) :
    (checker_comments = "" →
      reject_submit current_user ts checker_comments = none ∧
      exec_submit r (reject_submit current_user ts checker_comments) = r) ∧
    (checker_comments ≠ "" →
      reject_submit current_user ts checker_comments =
        some (reject_update_data current_user ts checker_comments) ∧
      (reject_update_data current_user ts checker_comments).map Prod.fst =
        ["review_status", "reviewed_by_checker", "reviewed_date_checker", "checker_comments"] ∧
      (r "review_status" = Val.str STATUS_PENDING →
        applyUpdate r (reject_update_data current_user ts checker_comments)
          "review_status" = Val.str STATUS_REJECTED) ∧
      applyUpdate r (reject_update_data current_user ts checker_comments)
        "business_reviewed_size" = r "business_reviewed_size" ∧
      applyUpdate r (reject_update_data current_user ts checker_comments)
        "business_reviewed_gender" = r "business_reviewed_gender" ∧
      applyUpdate r (reject_update_data current_user ts checker_comments)
        "checker_comments" = Val.str checker_comments) := by
  constructor
  · intro h
    have hnone : reject_submit current_user ts checker_comments = none := by
      unfold reject_submit
      exact if_pos h
    exact ⟨hnone, by rw [hnone]; rfl⟩
  · intro hc
    have hsome : reject_submit current_user ts checker_comments =
        some (reject_update_data current_user ts checker_comments) := by
      unfold reject_submit
      exact if_neg hc
    refine ⟨hsome, rfl, fun _ => ?_, ?_, ?_, ?_⟩ <;>
      simp [applyUpdate, reject_update_data, setCol, storedVal, hc, STATUS_REJECTED]

/-- C2 witness: the rejection theorem applied at concrete inputs. -/
theorem reject_submit_validation_witness :
    reject_submit "c@x.com" "2024-01-02 00:00:00" "" = none ∧
    applyUpdate (fun _ => Val.str "PENDING")
      (reject_update_data "c@x.com" "2024-01-02 00:00:00" "bad data")
      "review_status" = Val.str STATUS_REJECTED ∧
    applyUpdate (fun _ => Val.str "PENDING")
      (reject_update_data "c@x.com" "2024-01-02 00:00:00" "bad data")
      "business_reviewed_size" = Val.str "PENDING" := by
  have h1 := (reject_submit_validation "c@x.com" "2024-01-02 00:00:00" ""
    (fun _ => Val.null)).1 rfl
  have h2 := (reject_submit_validation "c@x.com" "2024-01-02 00:00:00" "bad data"
    (fun _ => Val.str "PENDING")).2 (by decide)
  exact ⟨h1.1, h2.2.2.1 (by decide), h2.2.2.2.1⟩

/-- C3 counterexample: the approve handler performs no non-empty check on
the edited values; with both edited values empty it still issues an
update, and the update stores NULL in the reviewed size column rather
than a value. -/
theorem approve_submit_no_validation_counterexample :
    approve_submit "" "" "c@x.com" "2024-01-02 00:00:00" "" =
      some (approve_update_data "" "" "c@x.com" "2024-01-02 00:00:00" "") ∧
    applyUpdate (fun _ => Val.str "PENDING")
      (approve_update_data "" "" "c@x.com" "2024-01-02 00:00:00" "")
      "business_reviewed_size" = Val.null := by
  exact ⟨rfl, by decide⟩

/-- C3 amended: checker approval is offered only for records in PENDING
status (the pending filter); the issued update sets review_status =
APPROVED and stores the edited size and gender into the non-pending
columns business_reviewed_size and business_reviewed_gender, copying them
verbatim when non-empty — but with no local validation, an empty edited
value being stored as NULL. -/
theorem approve_submit_behavior
    (edited_size edited_gender current_user ts checker_comments : String)
    (rows : List Row) (r : Row) :
    (r ∈ pending_reviews rows → r "review_status" = Val.str STATUS_PENDING) ∧
    approve_submit edited_size edited_gender current_user ts checker_comments =
      some (approve_update_data edited_size edited_gender current_user ts checker_comments) ∧
    applyUpdate r (approve_update_data edited_size edited_gender current_user ts checker_comments)
      "review_status" = Val.str STATUS_APPROVED ∧
    applyUpdate r (approve_update_data edited_size edited_gender current_user ts checker_comments)
      "business_reviewed_size" = storedVal (Val.str edited_size) ∧
    applyUpdate r (approve_update_data edited_size edited_gender current_user ts checker_comments)
      "business_reviewed_gender" = storedVal (Val.str edited_gender) ∧
    (edited_size ≠ "" →
      applyUpdate r (approve_update_data edited_size edited_gender current_user ts checker_comments)
        "business_reviewed_size" = Val.str edited_size) ∧
    (edited_gender ≠ "" →
      applyUpdate r (approve_update_data edited_size edited_gender current_user ts checker_comments)
        "business_reviewed_gender" = Val.str edited_gender) := by
  refine ⟨?_, rfl, ?_, ?_, ?_, ?_, ?_⟩
  · intro hmem
    have h := (List.mem_filter.mp hmem).2
    simpa using h
  all_goals
    simp [applyUpdate, approve_update_data, setCol, storedVal, STATUS_APPROVED]

/-- C3 amended witness: the approval theorem applied at a concrete pending
row. -/
theorem approve_submit_behavior_witness :
    (fun _ => Val.str "PENDING" : Row) "review_status" = Val.str STATUS_PENDING ∧
    applyUpdate (fun _ => Val.str "PENDING")
      (approve_update_data "SMALL" "FEMALE" "c@x.com" "2024-01-02 00:00:00" "ok")
      "business_reviewed_size" = Val.str "SMALL" := by
  have h := approve_submit_behavior "SMALL" "FEMALE" "c@x.com" "2024-01-02 00:00:00" "ok"
    [fun _ => Val.str "PENDING"] (fun _ => Val.str "PENDING")
  refine ⟨h.1 ?_, h.2.2.2.2.2.1 (by decide)⟩
  unfold pending_reviews
  exact List.mem_filter.mpr ⟨List.mem_singleton.mpr rfl, by decide⟩

/-- C10: update_record writes None and empty-string values as unquoted
SQL NULL, never as an empty quoted literal; in particular an approval
submitted with empty optional comments (passed through as the empty
string) stores NULL in checker_comments. -/
theorem update_record_null_for_empty (col : String) (v : Val)
    (edited_size edited_gender current_user ts : String) (r : Row)
    (h : v = Val.null ∨ v = Val.str "") :
    set_clause_for col v = col ++ " = NULL" ∧
    set_clause_for col v ≠ col ++ " = " ++ squotes ++ squotes ∧
    ("checker_comments", Val.str "") ∈
      approve_update_data edited_size edited_gender current_user ts "" ∧
    ("checker_comments" ++ " = NULL") ∈
      set_clauses (approve_update_data edited_size edited_gender current_user ts "") ∧
    applyUpdate r (approve_update_data edited_size edited_gender current_user ts "")
      "checker_comments" = Val.null := by
  have hnull : set_clause_for col v = col ++ " = NULL" := by
    rcases h with h | h <;> subst h <;> rfl
  refine ⟨hnull, ?_, ?_, ?_, ?_⟩
  · rw [hnull]
    intro heq
    have hlen := congrArg String.length heq
    simp only [String.length_append] at hlen
    have h1 : (" = NULL" : String).length = 7 := rfl
    have h2 : (" = " : String).length = 3 := rfl
    have h3 : squotes.length = 1 := rfl
    omega
  · simp [approve_update_data]
  · refine List.mem_map.mpr ⟨("checker_comments", Val.str ""), ?_, rfl⟩
    simp [approve_update_data]
  · simp [applyUpdate, approve_update_data, setCol, storedVal]

/-- C10 witness: the NULL-for-empty theorem applied at concrete inputs. -/
theorem update_record_null_for_empty_witness :
    set_clause_for "checker_comments" (Val.str "") = "checker_comments" ++ " = NULL" ∧
    applyUpdate (fun _ => Val.str "PENDING")
      (approve_update_data "SMALL" "FEMALE" "c@x.com" "2024-01-02 00:00:00" "")
      "checker_comments" = Val.null := by
  have h := update_record_null_for_empty "checker_comments" (Val.str "")
    "SMALL" "FEMALE" "c@x.com" "2024-01-02 00:00:00"
    (fun _ => Val.str "PENDING") (Or.inr rfl)
  exact ⟨h.1, h.2.2.2.2⟩

/-- C4: infer_sql_type is a total function returning exactly one of the
five SQL type names, and it follows the stated policy clause by clause:
object to STRING, int64 to BIGINT, float64 to DOUBLE, bool to BOOLEAN,
any dtype containing datetime to TIMESTAMP, anything else to STRING. -/
theorem infer_sql_type_policy (dtype : String) :
    (infer_sql_type dtype = "STRING" ∨ infer_sql_type dtype = "BIGINT" ∨
     infer_sql_type dtype = "DOUBLE" ∨ infer_sql_type dtype = "BOOLEAN" ∨
     infer_sql_type dtype = "TIMESTAMP") ∧
    (dtype = "object" → infer_sql_type dtype = "STRING") ∧
    (dtype = "int64" → infer_sql_type dtype = "BIGINT") ∧
    (dtype = "float64" → infer_sql_type dtype = "DOUBLE") ∧
    (dtype = "bool" → infer_sql_type dtype = "BOOLEAN") ∧
    (strContains dtype "datetime" = true → infer_sql_type dtype = "TIMESTAMP") ∧
    (dtype ≠ "object" → dtype ≠ "int64" → dtype ≠ "float64" → dtype ≠ "bool" →
      strContains dtype "datetime" = false → infer_sql_type dtype = "STRING") := by
  refine ⟨?_, ?_, ?_, ?_, ?_, ?_, ?_⟩
  · unfold infer_sql_type
    split_ifs <;> simp
  · intro h; subst h; rfl
  · intro h; subst h; rfl
  · intro h; subst h; rfl
  · intro h; subst h; rfl
  · intro h
    have n1 : dtype ≠ "object" := by rintro rfl; exact absurd h (by decide)
    have n2 : dtype ≠ "int64" := by rintro rfl; exact absurd h (by decide)
    have n3 : dtype ≠ "float64" := by rintro rfl; exact absurd h (by decide)
    have n4 : dtype ≠ "bool" := by rintro rfl; exact absurd h (by decide)
    simp [infer_sql_type, n1, n2, n3, n4, h]
  · intro h1 h2 h3 h4 h5
    simp [infer_sql_type, h1, h2, h3, h4, h5]

/-- C4 witness: the policy theorem applied at concrete dtype names. -/
theorem infer_sql_type_policy_witness :
    infer_sql_type "datetime64[ns]" = "TIMESTAMP" ∧
    infer_sql_type "category" = "STRING" ∧
    infer_sql_type "int64" = "BIGINT" := by
  refine ⟨(infer_sql_type_policy "datetime64[ns]").2.2.2.2.2.1 (by decide),
    (infer_sql_type_policy "category").2.2.2.2.2.2
      (by decide) (by decide) (by decide) (by decide) (by decide),
    (infer_sql_type_policy "int64").2.2.1 rfl⟩

/-- C5: create_table_from_dataframe always emits a CREATE TABLE IF NOT
EXISTS statement with backtick-quoted column names; under the warehouse
IF NOT EXISTS semantics issuing it twice equals issuing it once, and
against an existing table it is a no-op that leaves the table unchanged
and raises no error. -/
theorem create_table_idempotent (dtypes : List (String × String)) (table_name : String)
    (ts : TableState) :
    create_table_sql dtypes table_name =
      "\n    CREATE TABLE IF NOT EXISTS " ++ (table_name ++ " (\n        " ++
        (String.intercalate ", " (column_defs dtypes) ++ "\n    ) USING DELTA\n    ")) ∧
    (∀ p ∈ dtypes, ("`" ++ p.1 ++ "` " ++ infer_sql_type p.2) ∈ column_defs dtypes) ∧
    execCreateIfNotExists (execCreateIfNotExists ts dtypes) dtypes =
      execCreateIfNotExists ts dtypes ∧
    (table_exists ts = true → execCreateIfNotExists ts dtypes = ts) := by
  refine ⟨?_, ?_, ?_, ?_⟩
  · simp [create_table_sql, String.append_assoc]
  · intro p hp
    unfold column_defs
    exact List.mem_map_of_mem _ hp
  · cases hs : ts.schema with
    | none => simp [execCreateIfNotExists, hs]
    | some s => simp [execCreateIfNotExists, hs]
  · intro h
    unfold table_exists at h
    cases hs : ts.schema with
    | none => rw [hs] at h; simp at h
    | some s =>
      unfold execCreateIfNotExists
      rw [hs]

/-- C5 witness: the idempotence theorem applied at a concrete table state
and column set. -/
theorem create_table_idempotent_witness :
    execCreateIfNotExists { schema := some [("a", "object")], rows := [] } [("a", "object")] =
      { schema := some [("a", "object")], rows := [] } ∧
    ("`" ++ "a" ++ "` " ++ infer_sql_type "object") ∈ column_defs [("a", "object")] := by
  have h := create_table_idempotent [("a", "object")] "cat.sch.tbl"
    { schema := some [("a", "object")], rows := [] }
  exact ⟨h.2.2.2 (by decide), h.2.1 ("a", "object") (by decide)⟩

/-- C7 counterexample: against a table holding one row, overwrite mode
with a zero-row dataset issues no statement at all (insert_data_to_table
returns before building one), so the table keeps its one row instead of
ending with zero rows. -/
theorem overwrite_empty_dataset_counterexample :
    ((overwrite_mode_run { schema := some [("a", "object")], rows := [[Val.str "x"]] }
        [] [("a", "object")] "cat.sch.tbl").rows).length = 1 ∧
    ¬ (((overwrite_mode_run { schema := some [("a", "object")], rows := [[Val.str "x"]] }
        [] [("a", "object")] "cat.sch.tbl").rows).length =
       ([] : List (List Val)).length) := by
  decide

/-- C7 amended: for every NON-EMPTY uploaded dataset of M rows, running
the writer in overwrite mode leaves the table with exactly the M uploaded
rows, independent of the N rows previously stored; when the table does
not exist it is first created (with the inferred schema) and then
overwritten, and an existing schema is untouched. -/
theorem overwrite_mode_replaces (ts : TableState) (df : List (List Val))
    (dtypes : List (String × String)) (table_name : String) (h : df ≠ []) :
    (overwrite_mode_run ts df dtypes table_name).rows = df ∧
    (overwrite_mode_run ts df dtypes table_name).rows.length = df.length ∧
    (ts.schema = none → (overwrite_mode_run ts df dtypes table_name).schema = some dtypes) ∧
    (∀ s, ts.schema = some s → (overwrite_mode_run ts df dtypes table_name).schema = some s) := by
  have hrun : ∀ ts1 : TableState,
      run_insert ts1 df (dtypes.map Prod.fst) table_name "overwrite" = { ts1 with rows := df } := by
    intro ts1
    unfold run_insert insert_data_to_table
    rw [if_neg h]
    simp [execInsert]
  unfold overwrite_mode_run
  cases hs : ts.schema with
  | none =>
    simp [table_exists, hs, execCreateIfNotExists, hrun]
  | some s =>
    simp [table_exists, hs, hrun, hs]

/-- C7 amended witness: the overwrite theorem applied at a concrete table
with two prior rows and a one-row dataset. -/
theorem overwrite_mode_replaces_witness :
    (overwrite_mode_run
      { schema := some [("a", "object")], rows := [[Val.str "x"], [Val.str "y"]] }
      [[Val.str "z"]] [("a", "object")] "cat.sch.tbl").rows = [[Val.str "z"]] ∧
    (overwrite_mode_run
      { schema := none, rows := [] }
      [[Val.str "z"]] [("a", "object")] "cat.sch.tbl").schema = some [("a", "object")] := by
  refine ⟨(overwrite_mode_replaces
      { schema := some [("a", "object")], rows := [[Val.str "x"], [Val.str "y"]] }
      [[Val.str "z"]] [("a", "object")] "cat.sch.tbl" (by decide)).1,
    (overwrite_mode_replaces
      { schema := none, rows := [] }
      [[Val.str "z"]] [("a", "object")] "cat.sch.tbl" (by decide)).2.2.1 rfl⟩

/-- C8 counterexample: an empty string value is rendered as NULL, not as
an empty quoted literal, so neither its SET clause nor the full UPDATE
text contains the quoted empty-string form the claim requires for every
string value. -/
theorem update_record_empty_string_counterexample :
    set_clauses [("c", Val.str "")] = ["c" ++ " = NULL"] ∧
    strContains (update_record_sql "cat.sch.tbl" [("c", Val.str "")] "id = 1")
      ("c" ++ " = " ++ squotes ++ escape_quotes "" ++ squotes) = false := by
  decide

/-- C8 amended: update_record builds exactly one UPDATE statement of the
fixed shape; every NON-EMPTY string value is quote-escaped by doubling
single quotes and interpolated directly into the SQL text, its SET clause
list containing the clause col = quoted escaped value (an empty string
value is instead rendered as NULL per the None-or-empty branch). -/
theorem update_record_escaping (table_name where_clause col v : String)
    (record_data : List (String × Val)) (hv : v ≠ "")
    (hmem : (col, Val.str v) ∈ record_data) :
    update_record_sql table_name record_data where_clause =
      "UPDATE " ++ table_name ++ " SET " ++
        String.intercalate ", " (set_clauses record_data) ++ " WHERE " ++ where_clause ∧
    set_clause_for col (Val.str v) =
      col ++ " = " ++ squotes ++ escape_quotes v ++ squotes ∧
    (col ++ " = " ++ squotes ++ escape_quotes v ++ squotes) ∈ set_clauses record_data ∧
    escape_quotes v =
      String.mk ((v.data.map (fun c => if c = squote then [squote, squote] else [c])).flatten) := by
  have hclause : set_clause_for col (Val.str v) =
      col ++ " = " ++ squotes ++ escape_quotes v ++ squotes := by
    simp [set_clause_for, hv]
  refine ⟨rfl, hclause, ?_, rfl⟩
  have hm := List.mem_map_of_mem (fun p : String × Val => set_clause_for p.1 p.2) hmem
  rw [show (fun p : String × Val => set_clause_for p.1 p.2) (col, Val.str v) =
      set_clause_for col (Val.str v) from rfl, hclause] at hm
  exact hm

/-- C8 amended witness: the escaping theorem applied at a value holding a
single quote, which is doubled in the emitted clause. -/
theorem update_record_escaping_witness :
    (("name" ++ " = " ++ squotes ++ escape_quotes ("O" ++ squotes ++ "Brien") ++ squotes) ∈
      set_clauses [("name", Val.str ("O" ++ squotes ++ "Brien"))]) ∧
    escape_quotes ("O" ++ squotes ++ "Brien") = "O" ++ squotes ++ squotes ++ "Brien" := by
  have h := update_record_escaping "cat.sch.tbl" "id = 1" "name" ("O" ++ squotes ++ "Brien")
    [("name", Val.str ("O" ++ squotes ++ "Brien"))] (by decide) (by decide)
  exact ⟨h.2.2.1, by decide⟩

/-- enumeration from an offset distributes over append. -/
theorem enumFrom_append_eq (l1 l2 : List Val) (n : Nat) :
    List.enumFrom n (l1 ++ l2) =
      List.enumFrom n l1 ++ List.enumFrom (n + l1.length) l2 := by
  induction l1 generalizing n with
  | nil => simp
  | cons a as ih =>
    show (n, a) :: List.enumFrom (n + 1) (as ++ l2) =
      (n, a) :: List.enumFrom (n + 1) as ++ List.enumFrom (n + (a :: as).length) l2
    rw [ih]
    have hidx : n + 1 + as.length = n + (a :: as).length := by
      simp [List.length_cons]
      omega
    rw [hidx]
    rfl

/-- the placeholder texts of one row depend only on its length. -/
theorem row_bindings_fst (row : List Val) (p : Nat) :
    (row_bindings row p).1 = row_placeholders row.length p := by
  induction row generalizing p with
  | nil => rfl
  | cons v vs ih => simp [row_bindings, row_placeholders, ih]

/-- the bindings of one row enumerate its values from the counter. -/
theorem row_bindings_snd (row : List Val) (p : Nat) :
    (row_bindings row p).2 =
      (List.enumFrom p row).map (fun iv => bind_of iv.1 iv.2) := by
  induction row generalizing p with
  | nil => rfl
  | cons v vs ih => simp [row_bindings, List.enumFrom, ih]

/-- the VALUES groups of the whole statement depend only on the row
lengths, never on the data values themselves. -/
theorem build_bindings_fst (rows : List (List Val)) (p : Nat) :
    (build_bindings rows p).1 = values_shape (rows.map List.length) p := by
  induction rows generalizing p with
  | nil => rfl
  | cons row rest ih =>
    simp [build_bindings, values_shape, row_bindings_fst, ih]

/-- the bindings of the whole statement enumerate every data value of
every row, in order. -/
theorem build_bindings_snd (rows : List (List Val)) (p : Nat) :
    (build_bindings rows p).2 = flat_bindings rows p := by
  induction rows generalizing p with
  | nil => rfl
  | cons row rest ih =>
    simp [build_bindings, flat_bindings, row_bindings_snd, ih,
      enumFrom_append_eq, List.map_append]

/-- there is exactly one VALUES group per row. -/
theorem values_shape_length (lens : List Nat) (p : Nat) :
    (values_shape lens p).length = lens.length := by
  induction lens generalizing p with
  | nil => rfl
  | cons l ls ih => simp [values_shape, ih]

/-- C6: for every non-empty dataframe insert_data_to_table builds exactly
one statement — INSERT INTO in append mode, INSERT OVERWRITE in overwrite
mode — covering all rows with one VALUES group per row; the SQL text
interpolates only the table and column identifiers plus placeholder names
computed from the row lengths (never the data values), while every data
value is bound through the positional parameter list, missing (NaN/None)
values binding as SQL NULL. -/
theorem insert_stmt_one_statement (rows : List (List Val)) (cols : List String)
    (table_name : String) (h : rows ≠ []) :
    insert_data_to_table rows cols table_name "append" = some
      { sql := "INSERT INTO " ++ table_name ++ " (" ++ col_list_sql cols ++ ") VALUES " ++
          String.intercalate "," (values_shape (rows.map List.length) 0),
        params := flat_bindings rows 0 } ∧
    insert_data_to_table rows cols table_name "overwrite" = some
      { sql := "INSERT OVERWRITE " ++ table_name ++ " (" ++ col_list_sql cols ++ ") VALUES " ++
          String.intercalate "," (values_shape (rows.map List.length) 0),
        params := flat_bindings rows 0 } ∧
    (values_shape (rows.map List.length) 0).length = rows.length ∧
    (∀ i v, (i, v) ∈ List.enumFrom 0 rows.flatten →
      bind_of i v ∈ flat_bindings rows 0 ∧
      (isna v = true → (bind_of i v).2 = none) ∧
      (isna v = false → (bind_of i v).2 = some v)) := by
  refine ⟨?_, ?_, ?_, ?_⟩
  · unfold insert_data_to_table
    rw [if_neg h]
    simp [build_bindings_fst, build_bindings_snd]
  · unfold insert_data_to_table
    rw [if_neg h]
    simp [build_bindings_fst, build_bindings_snd]
  · rw [values_shape_length]
    simp
  · intro i v hmem
    refine ⟨?_, ?_, ?_⟩
    · unfold flat_bindings
      exact List.mem_map_of_mem _ hmem
    · intro hv; simp [bind_of, hv]
    · intro hv; simp [bind_of, hv]

/-- C6 witness: the statement theorem applied at a concrete two-column
dataframe with one missing value. -/
theorem insert_stmt_one_statement_witness :
    insert_data_to_table [[Val.num 1, Val.null]] ["a", "b"] "cat.sch.tbl" "append" = some
      { sql := "INSERT INTO " ++ "cat.sch.tbl" ++ " (" ++ col_list_sql ["a", "b"] ++
          ") VALUES " ++
          String.intercalate "," (values_shape ([[Val.num 1, Val.null]].map List.length) 0),
        params := flat_bindings [[Val.num 1, Val.null]] 0 } ∧
    flat_bindings [[Val.num 1, Val.null]] 0 =
      [("p0", some (Val.num 1)), ("p1", none)] := by
  refine ⟨(insert_stmt_one_statement [[Val.num 1, Val.null]] ["a", "b"] "cat.sch.tbl"
    (by decide)).1, by decide⟩

/-- a value produced by the user_name step is email-shaped. -/
theorem fromUserName_hasAt {u : WCUser} {n : String}
    (h : fromUserName u = some n) : hasAt n = true := by
  unfold fromUserName at h
  cases hun : u.user_name with
  | none => rw [hun] at h; simp at h
  | some m =>
    rw [hun] at h
    have h2 : (if (m != "" && hasAt m) = true then some m else none) = some n := h
    by_cases hc : (m != "" && hasAt m) = true
    · rw [if_pos hc] at h2
      have hmn : m = n := by injection h2
      subst hmn
      simp only [Bool.and_eq_true] at hc
      exact hc.2
    · rw [if_neg hc] at h2
      simp at h2

/-- a value produced by the emails step is email-shaped. -/
theorem fromEmails_hasAt {u : WCUser} {e : String}
    (h : fromEmails u = some e) : hasAt e = true := by
  unfold fromEmails at h
  cases hes : u.emails with
  | nil => rw [hes] at h; simp at h
  | cons m ms =>
    rw [hes] at h
    have h2 : (if (m != "" && hasAt m) = true then some m else none) = some e := h
    by_cases hc : (m != "" && hasAt m) = true
    · rw [if_pos hc] at h2
      have hme : m = e := by injection h2
      subst hme
      simp only [Bool.and_eq_true] at hc
      exact hc.2
    · rw [if_neg hc] at h2
      simp at h2

/-- a value produced by the display_name step is email-shaped. -/
theorem fromDisplayName_hasAt {u : WCUser} {d : String}
    (h : fromDisplayName u = some d) : hasAt d = true := by
  unfold fromDisplayName at h
  cases hdn : u.display_name with
  | none => rw [hdn] at h; simp at h
  | some m =>
    rw [hdn] at h
    have h2 : (if (m != "" && hasAt m) = true then some m else none) = some d := h
    by_cases hc : (m != "" && hasAt m) = true
    · rw [if_pos hc] at h2
      have hmd : m = d := by injection h2
      subst hmd
      simp only [Bool.and_eq_true] at hc
      exact hc.2
    · rw [if_neg hc] at h2
      simp at h2

/-- when any of the three identity-service positions is email-shaped,
method 3 returns an email-shaped string. -/
theorem method3_hasAt (u : WCUser)
    (h : ((fromUserName u).isSome || ((fromEmails u).isSome || (fromDisplayName u).isSome)) = true) :
    hasAt (method3 u) = true := by
  unfold method3
  cases hn : fromUserName u with
  | some n => exact fromUserName_hasAt hn
  | none =>
    cases he : fromEmails u with
    | some e => exact fromEmails_hasAt he
    | none =>
      cases hd : fromDisplayName u with
      | some d => exact fromDisplayName_hasAt hd
      | none => rw [hn, he, hd] at h; simp at h

/-- when none of the three identity-service positions is email-shaped,
method 3 falls back to the bare id. -/
theorem method3_idOr (u : WCUser) (hn : fromUserName u = none)
    (he : fromEmails u = none) (hd : fromDisplayName u = none) :
    method3 u = idOr u := by
  unfold method3
  rw [hn, he, hd]

/-- the tail after method 2 is email-shaped when the identity service
supplies an email-shaped value. -/
theorem after_exp_hasAt (env : IdentityEnv) (h : wc_slots env = true) :
    hasAt (after_exp env) = true := by
  unfold after_exp
  unfold wc_slots at h
  cases hw : env.wc_user with
  | some u =>
    rw [hw] at h
    exact method3_hasAt u h
  | none => rw [hw] at h; simp at h

/-- the tail after method 1 is email-shaped when the host claim or the
identity service supplies an email-shaped value. -/
theorem after_sql_hasAt (env : IdentityEnv)
    (h : (exp_slot env || wc_slots env) = true) :
    hasAt (after_sql env) = true := by
  unfold after_sql
  unfold exp_slot at h
  cases he : env.exp_user with
  | none =>
    rw [he] at h
    apply after_exp_hasAt
    simpa using h
  | some eo =>
    cases eo with
    | none =>
      rw [he] at h
      apply after_exp_hasAt
      simpa using h
    | some em =>
      rw [he] at h
      have h2 : ((em != "" && hasAt em) || wc_slots env) = true := h
      show hasAt (if (em != "" && hasAt em) = true then em else after_exp env) = true
      by_cases hc : (em != "" && hasAt em) = true
      · rw [if_pos hc]
        simp only [Bool.and_eq_true] at hc
        exact hc.2
      · rw [if_neg hc]
        apply after_exp_hasAt
        simp only [Bool.or_eq_true] at h2
        rcases h2 with h3 | h4
        · exact absurd h3 hc
        · exact h4

/-- the tail after method 2 degrades to the sentinel exactly when the
identity-service lookup raised. -/
theorem after_exp_sentinel (env : IdentityEnv) (hw : env.wc_user = none) :
    after_exp env = "unknown@databricks.com" := by
  unfold after_exp
  rw [hw]

/-- the tail after method 2 returns the bare id when no identity-service
position is email-shaped but a truthy id exists. -/
theorem after_exp_bare_id (env : IdentityEnv) (u : WCUser) (i : String)
    (hw : env.wc_user = some u) (hn : fromUserName u = none)
    (he : fromEmails u = none) (hd : fromDisplayName u = none)
    (hid : u.id = some i) (hi : i ≠ "") :
    after_exp env = i := by
  unfold after_exp
  rw [hw]
  show method3 u = i
  rw [method3_idOr u hn he hd]
  unfold idOr
  rw [hid]
  show (if (i != "") = true then i else "unknown") = i
  rw [if_pos (by simpa using hi)]

/-- the tail after method 1 passes through to the method 3 tail when the
host claim is not email-shaped. -/
theorem after_sql_to_exp (env : IdentityEnv) (h : exp_slot env = false) :
    after_sql env = after_exp env := by
  unfold after_sql
  unfold exp_slot at h
  cases he : env.exp_user with
  | none => rfl
  | some eo =>
    cases eo with
    | none => rfl
    | some em =>
      rw [he] at h
      have h2 : (em != "" && hasAt em) = false := h
      show (if (em != "" && hasAt em) = true then em else after_exp env) = after_exp env
      rw [if_neg (by simp [h2])]

/-- the three identity-service positions are all empty when the method 3
slot test is false. -/
theorem wc_slots_all_none (env : IdentityEnv) (u : WCUser)
    (hw : env.wc_user = some u) (h : wc_slots env = false) :
    fromUserName u = none ∧ fromEmails u = none ∧ fromDisplayName u = none := by
  unfold wc_slots at h
  rw [hw] at h
  have h2 : ((fromUserName u).isSome || ((fromEmails u).isSome || (fromDisplayName u).isSome)) = false := h
  refine ⟨?_, ?_, ?_⟩
  · cases hx : fromUserName u with
    | none => rfl
    | some _ => rw [hx] at h2; simp at h2
  · cases hx : fromEmails u with
    | none => rfl
    | some _ => rw [hx] at h2; simp at h2
  · cases hx : fromDisplayName u with
    | none => rfl
    | some _ => rw [hx] at h2; simp at h2

/-- C9: get_current_user_email returns an at-sign-containing string
whenever any method of its fallback chain supplies a truthy email-shaped
value at the position the code inspects; when no method supplies one but
the identity service yields a truthy id, the bare id is returned rather
than the sentinel; the fixed sentinel unknown at databricks dot com is
returned when every method fails (the identity lookup raising last). -/
theorem user_email_fallback_chain (env : IdentityEnv) :
    (email_supplied env = true → hasAt (get_current_user_email env) = true) ∧
    (∀ u i, email_supplied env = false → env.wc_user = some u → u.id = some i → i ≠ "" →
      get_current_user_email env = i) ∧
    (email_supplied env = false → env.wc_user = none →
      get_current_user_email env = "unknown@databricks.com") := by
  refine ⟨?_, ?_, ?_⟩
  · intro h
    unfold email_supplied at h
    unfold sql_slot at h
    unfold get_current_user_email
    cases hs : env.sql_user with
    | some v =>
      rw [hs] at h
      have h2 : (hasAt v || (exp_slot env || wc_slots env)) = true := h
      show hasAt (if hasAt v = true then v else after_sql env) = true
      by_cases hv : hasAt v = true
      · rw [if_pos hv]
        exact hv
      · rw [if_neg hv]
        apply after_sql_hasAt
        simp only [Bool.or_eq_true] at h2
        rcases h2 with h3 | h4 | h5
        · exact absurd h3 hv
        · simp [h4]
        · simp [h5]
    | none =>
      rw [hs] at h
      have h2 : (exp_slot env || wc_slots env) = true := by simpa using h
      exact after_sql_hasAt env h2
  · intro u i h hw hid hi
    unfold email_supplied at h
    rcases Bool.or_eq_false_iff.mp h with ⟨h1, h23⟩
    rcases Bool.or_eq_false_iff.mp h23 with ⟨h2, h3⟩
    obtain ⟨hn, he, hd⟩ := wc_slots_all_none env u hw h3
    have htail : after_sql env = i := by
      rw [after_sql_to_exp env h2]
      exact after_exp_bare_id env u i hw hn he hd hid hi
    unfold sql_slot at h1
    unfold get_current_user_email
    cases hs : env.sql_user with
    | some v =>
      rw [hs] at h1
      show (if hasAt v = true then v else after_sql env) = i
      rw [if_neg (by simp [show hasAt v = false from h1])]
      exact htail
    | none => exact htail
  · intro h hw
    unfold email_supplied at h
    rcases Bool.or_eq_false_iff.mp h with ⟨h1, h23⟩
    rcases Bool.or_eq_false_iff.mp h23 with ⟨h2, _⟩
    have htail : after_sql env = "unknown@databricks.com" := by
      rw [after_sql_to_exp env h2]
      exact after_exp_sentinel env hw
    unfold sql_slot at h1
    unfold get_current_user_email
    cases hs : env.sql_user with
    | some v =>
      rw [hs] at h1
      show (if hasAt v = true then v else after_sql env) = "unknown@databricks.com"
      rw [if_neg (by simp [show hasAt v = false from h1])]
      exact htail
    | none => exact htail

/-- C9 witness: the fallback theorem applied at three concrete
environments, among them the specification example where the warehouse
query raises, the host claim is absent and the identity service returns a
bare id without an at sign. -/
theorem user_email_fallback_chain_witness :
    get_current_user_email
      { sql_user := none, exp_user := none,
        wc_user := some
          { user_name := none, emails := ["bob"], display_name := none, id := some "12345" } } =
      "12345" ∧
    hasAt (get_current_user_email
      { sql_user := some "alice@x.com", exp_user := none, wc_user := none }) = true ∧
    get_current_user_email
      { sql_user := some "alice", exp_user := some none, wc_user := none } =
      "unknown@databricks.com" := by
  refine ⟨?_, ?_, ?_⟩
  · exact (user_email_fallback_chain
      { sql_user := none, exp_user := none,
        wc_user := some
          { user_name := none, emails := ["bob"], display_name := none, id := some "12345" } }).2.1
      { user_name := none, emails := ["bob"], display_name := none, id := some "12345" }
      "12345" (by decide) rfl rfl (by decide)
  · exact (user_email_fallback_chain
      { sql_user := some "alice@x.com", exp_user := none, wc_user := none }).1 (by decide)
  · exact (user_email_fallback_chain
      { sql_user := some "alice", exp_user := some none, wc_user := none }).2.2
      (by decide) rfl
